import Mathlib

/-!
Shallow embedding of the retrieval/generation engine of the
knowledge-graph-RAG backend, with theorems checking the specification's
claims against it.

Sources embedded (TypeScript):
- `src/backend/src/services/EmbeddingService.ts`
- `src/backend/src/services/AIProviderService.ts`
- `KnowledgeGraphService` (addNode / addRelation / searchSimilarNodes /
  performRAGQuery / processDocument / getKnowledgeGraph / deleteNode)
- `ChatController.sendMessage`

Modelling conventions:
- Float arithmetic is modelled exactly: embedding components and vector-store
  scores are `ℚ`, cosine similarity is a real number (`Real.sqrt` appears in
  the source's formula).
- External providers (OpenAI / Anthropic / Ollama HTTP calls) and the Qdrant
  scoring function are oracles passed as parameters; a call either returns a
  payload or an error message, exactly as the `try/catch` structure of the
  source distinguishes.
- JavaScript `a || b` defaulting and `if (x)` truthiness (absent, empty
  string and the number 0 are falsy) are modelled by explicit helpers.
- MongoDB ObjectIds and the `uuidv4()` stream are modelled by counters: each
  freshly issued identifier differs from every identifier issued before.
-/

namespace KGraph

/-- JavaScript truthiness of an optional string: `undefined` and `""` are
falsy, every other string is truthy. -/
def truthy : Option String → Bool
  | none => false
  | some s => !s.isEmpty

/-- JavaScript `v || d` on an optional string: the default is taken when the
value is absent or the empty string. -/
def orDefault (v : Option String) (d : String) : String :=
  match v with
  | some s => if s.isEmpty then d else s
  | none => d

/-- JavaScript `v || d` on an optional number: the default is taken when the
value is absent or `0` (zero is falsy). -/
def orNumQ (v : Option ℚ) (d : ℚ) : ℚ :=
  match v with
  | some x => if x = 0 then d else x
  | none => d

/-- JavaScript `v || d` on an optional natural number (zero is falsy). -/
def orNumNat (v : Option Nat) (d : Nat) : Nat :=
  match v with
  | some x => if x = 0 then d else x
  | none => d

/-- JavaScript `haystack.includes(needle)`: substring containment. -/
def strIncludes (haystack needle : String) : Bool :=
  decide (List.IsInfix needle.toList haystack.toList)

/-! ## EmbeddingService -/

/-- `EmbeddingRequest` of `types/index.ts`. -/
structure EmbeddingRequest where
  text : String
  model : Option String

/-- `EmbeddingResponse` of `types/index.ts`. -/
structure EmbeddingResponse where
  embedding : List ℚ
  model : String
  tokens : Nat
deriving DecidableEq

/-- Environment variables read by `EmbeddingService`. -/
structure EmbEnv where
  USE_OLLAMA_FALLBACK : Option String
  DEFAULT_EMBEDDING_MODEL : Option String
  OLLAMA_EMBEDDING_MODEL : Option String

/-- Outcomes of the two outbound embedding HTTP calls, as oracles:
`openai model text` is the OpenAI embeddings call (vector and token count, or
a thrown error's message); `ollama model text` is the Ollama `/api/embeddings`
call (vector, or a thrown error's message). -/
structure EmbProviders where
  openai : String → String → Except String (List ℚ × Nat)
  ollama : String → String → Except String (List ℚ)

/-- `this.useOllamaFallback = process.env.USE_OLLAMA_FALLBACK !== 'false'`. -/
def useOllamaFallback (env : EmbEnv) : Bool :=
  env.USE_OLLAMA_FALLBACK != some "false"

/-- `EmbeddingService.generateEmbeddingWithOllama(text, model?)`: the model is
`model || process.env.OLLAMA_EMBEDDING_MODEL || 'nomic-embed-text'`; on
success the response is tagged with that model and token count 0; on failure
the method throws `Failed to generate embedding with Ollama`. -/
def generateEmbeddingWithOllama (env : EmbEnv) (pr : EmbProviders)
    (text : String) (model? : Option String) : Except String EmbeddingResponse :=
  let ollamaModel := orDefault model? (orDefault env.OLLAMA_EMBEDDING_MODEL "nomic-embed-text")
  match pr.ollama ollamaModel text with
  | .ok v => .ok { embedding := v, model := ollamaModel, tokens := 0 }
  | .error _ => .error "Failed to generate embedding with Ollama"

/-- `EmbeddingService.generateEmbedding(request)`: try OpenAI with
`request.model || process.env.DEFAULT_EMBEDDING_MODEL || 'text-embedding-3-small'`;
on any error, if the Ollama fallback is enabled, retry via
`generateEmbeddingWithOllama(request.text, request.model)` (note: the raw
request model hint is forwarded); if that also fails throw
`Failed to generate embedding with any provider`; with fallback disabled
rethrow as `OpenAI embedding failed: …`. -/
def generateEmbedding (env : EmbEnv) (pr : EmbProviders)
    (req : EmbeddingRequest) : Except String EmbeddingResponse :=
  let model := orDefault req.model (orDefault env.DEFAULT_EMBEDDING_MODEL "text-embedding-3-small")
  match pr.openai model req.text with
  | .ok (v, tok) => .ok { embedding := v, model := model, tokens := tok }
  | .error errMsg =>
    if useOllamaFallback env then
      match generateEmbeddingWithOllama env pr req.text req.model with
      | .ok r => .ok r
      | .error _ => .error "Failed to generate embedding with any provider"
    else
      .error ("OpenAI embedding failed: " ++ errMsg)

/-- `KnowledgeGraphService.getVectorName(model)`: namespace derivation by
substring matching on the model name, defaulting to `openai`. -/
def getVectorName (model : String) : String :=
  if strIncludes model "text-embedding" || strIncludes model "openai" then "openai"
  else if strIncludes model "nomic-embed" || strIncludes model "ollama" then "ollama"
  else "openai"

/-- Accumulated dot product of the loop in `calculateSimilarity`. -/
def dotProduct (e1 e2 : List ℚ) : ℚ :=
  (List.zipWith (· * ·) e1 e2).sum

/-- Accumulated sum of squares (`norm1` / `norm2` before the square root) of
the loop in `calculateSimilarity`. -/
def normSq (e : List ℚ) : ℚ :=
  (e.map fun x => x * x).sum

/-- `EmbeddingService.calculateSimilarity(embedding1, embedding2)`: throws on
length mismatch; computes dot product and the two Euclidean norms; returns 0
when either norm is zero; otherwise the cosine similarity. The float
arithmetic is modelled exactly over the reals. -/
noncomputable def calculateSimilarity (e1 e2 : List ℚ) : Except String ℝ :=
  if e1.length ≠ e2.length then
    .error "Embeddings must have the same length"
  else
    let norm1 : ℝ := Real.sqrt ((normSq e1 : ℚ) : ℝ)
    let norm2 : ℝ := Real.sqrt ((normSq e2 : ℚ) : ℝ)
    if norm1 = 0 ∨ norm2 = 0 then .ok 0
    else .ok (((dotProduct e1 e2 : ℚ) : ℝ) / (norm1 * norm2))

theorem normSq_nonneg (e : List ℚ) : 0 ≤ normSq e := by
  unfold normSq
  induction e with
  | nil => simp
  | cons x xs ih =>
    simp only [List.map_cons, List.sum_cons]
    exact add_nonneg (mul_self_nonneg x) ih

theorem normSq_eq_zero_iff (e : List ℚ) : normSq e = 0 ↔ ∀ x ∈ e, x = 0 := by
  unfold normSq
  induction e with
  | nil => simp
  | cons x xs ih =>
    simp only [List.map_cons, List.sum_cons, List.mem_cons]
    constructor
    · intro h
      have hx : x * x ≥ 0 := mul_self_nonneg x
      have hxs : (xs.map fun y => y * y).sum ≥ 0 := by
        have := normSq_nonneg xs
        simpa [normSq] using this
      have hx0 : x * x = 0 := by linarith
      have hxs0 : (xs.map fun y => y * y).sum = 0 := by linarith
      refine fun y hy => ?_
      rcases hy with hy | hy
      · subst hy; exact mul_self_eq_zero.mp hx0
      · exact (ih.mp hxs0) y hy
    · intro h
      have hx := h x (Or.inl rfl)
      have hxs : (xs.map fun y => y * y).sum = 0 := ih.mpr fun y hy => h y (Or.inr hy)
      simp [hx, hxs]

theorem dotProduct_comm (e1 e2 : List ℚ) : dotProduct e1 e2 = dotProduct e2 e1 := by
  unfold dotProduct
  rw [List.zipWith_comm_of_comm]
  exact fun a b => mul_comm a b

theorem dotProduct_self (e : List ℚ) : dotProduct e e = normSq e := by
  unfold dotProduct normSq
  induction e with
  | nil => simp
  | cons x xs ih => simp [ih]

/-! ## AIProviderService -/

/-- Environment variables read by `AIProviderService`. -/
structure GenEnv where
  OPENAI_API_KEY : Option String
  ANTHROPIC_API_KEY : Option String
  OPENAI_MODEL : Option String
  ANTHROPIC_MODEL : Option String
  OLLAMA_MODEL : Option String

/-- `ChatRequest` of `types/index.ts` (the fields the service reads). -/
structure ChatRequest where
  message : String
  sessionId : Option String
  model : Option String
  provider : Option String
  context : Option (List String)
  customKeyId : Option String
  apiKey : Option String
  baseUrl : Option String

/-- The `metadata` object of a `ChatResponse`. -/
structure ChatMetadata where
  model : String
  provider : String
  tokens : Nat
  sources : Option (List String)

/-- `ChatResponse` of `types/index.ts` (the fields the service writes). -/
structure ChatResponse where
  message : String
  sessionId : String
  metadata : ChatMetadata

/-- Outcomes of the outbound generation calls, as oracles indexed by the model
name each call is made with: message text and token count, or a thrown error's
message. `freshSessionId` stands for one draw of `generateSessionId()`.
Credential selection (`userApiKey || process.env…`) only parameterizes the
outbound HTTP client and is absorbed into the oracles. -/
structure GenProviders where
  openai : String → Except String (String × Nat)
  anthropic : String → Except String (String × Nat)
  ollama : String → Except String String
  freshSessionId : String

/-- `AIProviderService.getDefaultProvider()`: OpenAI if its process-level key
is truthy, else Anthropic if its key is truthy, else Ollama. -/
def getDefaultProvider (env : GenEnv) : String :=
  if truthy env.OPENAI_API_KEY then "openai"
  else if truthy env.ANTHROPIC_API_KEY then "anthropic"
  else "ollama"

/-- `AIProviderService.getDefaultModel(provider)`; the `ollama` case and the
`default` case of the source's switch coincide. -/
def getDefaultModel (env : GenEnv) (provider : String) : String :=
  if provider = "openai" then orDefault env.OPENAI_MODEL "gpt-4-turbo-preview"
  else if provider = "anthropic" then orDefault env.ANTHROPIC_MODEL "claude-3-sonnet-20240229"
  else orDefault env.OLLAMA_MODEL "llama2"

/-- `AIProviderService.generateOpenAIResponse(request, userApiKey)`: calls the
OpenAI chat API with `request.model || 'gpt-4-turbo-preview'`; any error is
caught and rethrown as `Failed to generate OpenAI response`. -/
def generateOpenAIResponse (pr : GenProviders) (req : ChatRequest) :
    Except String ChatResponse :=
  let model := orDefault req.model "gpt-4-turbo-preview"
  match pr.openai model with
  | .ok (msg, tok) =>
    .ok { message := msg, sessionId := orDefault req.sessionId pr.freshSessionId,
          metadata := { model := model, provider := "openai", tokens := tok,
                        sources := req.context } }
  | .error _ => .error "Failed to generate OpenAI response"

/-- `AIProviderService.generateAnthropicResponse(request, userApiKey)`: calls
Anthropic with `request.model || 'claude-3-sonnet-20240229'`; any error is
caught and rethrown as `Failed to generate Anthropic response`. -/
def generateAnthropicResponse (pr : GenProviders) (req : ChatRequest) :
    Except String ChatResponse :=
  let model := orDefault req.model "claude-3-sonnet-20240229"
  match pr.anthropic model with
  | .ok (msg, tok) =>
    .ok { message := msg, sessionId := orDefault req.sessionId pr.freshSessionId,
          metadata := { model := model, provider := "anthropic", tokens := tok,
                        sources := req.context } }
  | .error _ => .error "Failed to generate Anthropic response"

/-- `AIProviderService.generateOllamaResponse(request, model?)`: the model is
`model || process.env.OLLAMA_MODEL || 'llama2'`; token count is 0; any error
is caught and rethrown as `Failed to generate Ollama response`. -/
def generateOllamaResponse (env : GenEnv) (pr : GenProviders)
    (req : ChatRequest) (model? : Option String) : Except String ChatResponse :=
  let ollamaModel := orDefault model? (orDefault env.OLLAMA_MODEL "llama2")
  match pr.ollama ollamaModel with
  | .ok msg =>
    .ok { message := msg, sessionId := orDefault req.sessionId pr.freshSessionId,
          metadata := { model := ollamaModel, provider := "ollama", tokens := 0,
                        sources := req.context } }
  | .error _ => .error "Failed to generate Ollama response"

/-- The `switch (provider)` of `generateResponse`, together with the name of
the provider actually invoked (the call log entry); an unsupported provider
string throws without any outbound call. -/
def dispatchProvider (env : GenEnv) (pr : GenProviders) (req : ChatRequest)
    (provider model : String) : Except String ChatResponse × List String :=
  if provider = "openai" then (generateOpenAIResponse pr req, ["openai"])
  else if provider = "anthropic" then (generateAnthropicResponse pr req, ["anthropic"])
  else if provider = "ollama" then (generateOllamaResponse env pr req (some model), ["ollama"])
  else (.error ("Unsupported provider: " ++ provider), [])

/-- `AIProviderService.generateResponse(request, userApiKey)`: select
`request.provider || getDefaultProvider()` and
`request.model || getDefaultModel(provider)`, dispatch; on failure of a
non-Ollama provider retry exactly once against Ollama with
`process.env.OLLAMA_MODEL || 'llama2'`, combining both error messages if the
retry also fails; a failure of Ollama as first choice is rethrown with no
retry. The second component logs, in order, the providers actually called. -/
def generateResponse (env : GenEnv) (pr : GenProviders) (req : ChatRequest) :
    Except String ChatResponse × List String :=
  let provider := orDefault req.provider (getDefaultProvider env)
  let model := orDefault req.model (getDefaultModel env provider)
  match dispatchProvider env pr req provider model with
  | (.ok r, log) => (.ok r, log)
  | (.error errMsg, log) =>
    if provider ≠ "ollama" then
      match generateOllamaResponse env pr req (some (orDefault env.OLLAMA_MODEL "llama2")) with
      | .ok r => (.ok r, log ++ ["ollama"])
      | .error om =>
        (.error ("All AI providers failed. Primary: " ++ errMsg ++ ", Ollama: " ++ om),
         log ++ ["ollama"])
    else (.error errMsg, log)

/-! ## KnowledgeGraphService: data model and state

MongoDB ObjectIds are modelled as naturals issued by a counter (`nextId`);
Qdrant point ids (the `uuidv4()` stream) as naturals issued by a second
counter (`nextUuid`): a freshly drawn UUID differs from every UUID drawn
before, which is the property of a random v4 UUID the proofs rely on.
Timestamps are dropped; MongoDB's insertion order stands in for `createdAt`
order. -/

/-- The `metadata` subdocument of a `KnowledgeNode` (timestamps dropped). -/
structure NodeMetadata where
  source : Option String
  confidence : Option ℚ
  tags : List String
deriving DecidableEq

/-- `KnowledgeNode` of `types/index.ts`. -/
structure KNode where
  id : Nat
  userId : String
  title : String
  content : String
  type : String
  embedding : Option (List ℚ)
  metadata : NodeMetadata
  connections : List Nat
deriving DecidableEq

/-- `KnowledgeRelation` of `types/index.ts`; its free-form `metadata` is
restricted to the one key the embedded call sites write (`{similarity}`). -/
structure KRelation where
  id : Nat
  userId : String
  sourceNodeId : Nat
  targetNodeId : Nat
  relationType : String
  strength : ℝ
  metadataSimilarity : Option ℝ

/-- One point of the Qdrant collection: id, the named vector it carries, and
the payload written by `addNode`. -/
structure VPoint where
  id : Nat
  vectorName : String
  vector : List ℚ
  mongoId : Nat
  userId : String
  title : String
  content : String
  type : String
  embeddingModel : String
deriving DecidableEq

/-- The two stores (MongoDB node and relation collections, Qdrant point
collection) plus the two id generators. -/
structure GraphState where
  nodes : List KNode
  relations : List KRelation
  points : List VPoint
  nextId : Nat
  nextUuid : Nat

/-- A graph state with both stores empty. -/
def emptyState : GraphState :=
  { nodes := [], relations := [], points := [], nextId := 0, nextUuid := 0 }

/-- `KnowledgeGraphService.convertObjectIdToUUID(objectId)`: despite its name
and the call-site comments (`Convert MongoDB ObjectId to UUID format`), the
source ignores `objectId` and returns a fresh `uuidv4()`; freshness of the
random draw is modelled by the counter. -/
def convertObjectIdToUUID (st : GraphState) (_objectId : Nat) : Nat × GraphState :=
  (st.nextUuid, { st with nextUuid := st.nextUuid + 1 })

/-- Qdrant `upsert` of a single point: replace the point with the same id if
one exists, else insert. -/
def upsertPoint (ps : List VPoint) (p : VPoint) : List VPoint :=
  if ps.any (fun q => q.id == p.id) then
    ps.map (fun q => if q.id == p.id then p else q)
  else ps ++ [p]

/-- Mongo `$addToSet` on a connections array. -/
def addToSet (l : List Nat) (x : Nat) : List Nat :=
  if x ∈ l then l else l ++ [x]

/-- Effect of `updateOne({_id: nid}, {$addToSet: {connections: conn}})` on one
document (ids are unique in every reachable state, so updating each matching
document equals updating the first). -/
def addToSetIfId (nid conn : Nat) (n : KNode) : KNode :=
  if n.id == nid then { n with connections := addToSet n.connections conn } else n

/-- Mongo `updateOne({_id: nid}, {$addToSet: {connections: conn}})` over the
node collection; a missing `nid` matches nothing. -/
def updateOneAddToSet (nodes : List KNode) (nid conn : Nat) : List KNode :=
  nodes.map (addToSetIfId nid conn)

/-- The input of `addNode` (`Omit<KnowledgeNode, '_id' | timestamps>`). -/
structure NodeInput where
  userId : String
  title : String
  content : String
  type : String
  metadata : NodeMetadata
  connections : List Nat
deriving DecidableEq

/-- `KnowledgeGraphService.addNode(node)` in a run where the embedding
provider succeeds (`emb` is the successful outcome of
`embeddingService.generateEmbedding` on the given text): embed
`title ++ " " ++ content`, save the node to MongoDB, and upsert a Qdrant point
under a fresh UUID with the payload mirroring the node. -/
def addNode (emb : String → EmbeddingResponse) (st : GraphState)
    (inp : NodeInput) : KNode × GraphState :=
  let er := emb (inp.title ++ " " ++ inp.content)
  let node : KNode :=
    { id := st.nextId, userId := inp.userId, title := inp.title,
      content := inp.content, type := inp.type, embedding := some er.embedding,
      metadata := inp.metadata, connections := inp.connections }
  let vectorName := getVectorName er.model
  let st1 : GraphState := { st with nodes := st.nodes ++ [node], nextId := st.nextId + 1 }
  let (qdrantId, st2) := convertObjectIdToUUID st1 node.id
  let point : VPoint :=
    { id := qdrantId, vectorName := vectorName, vector := er.embedding,
      mongoId := node.id, userId := inp.userId, title := inp.title,
      content := inp.content, type := inp.type, embeddingModel := er.model }
  (node, { st2 with points := upsertPoint st2.points point })

/-- The input of `addRelation` (`Omit<KnowledgeRelation, '_id' | 'createdAt'>`). -/
structure RelationInput where
  userId : String
  sourceNodeId : Nat
  targetNodeId : Nat
  relationType : String
  strength : ℝ
  metadataSimilarity : Option ℝ

/-- `KnowledgeGraphService.addRelation(relation)`: saving the relation fails
on the unique `(sourceNodeId, targetNodeId)` index (the catch rethrows
`Failed to add knowledge relation`); on success each endpoint node's
`connections` gains the other endpoint via `$addToSet` (a `updateOne` on a
missing endpoint silently matches nothing). -/
def addRelation (st : GraphState) (inp : RelationInput) :
    Except String (KRelation × GraphState) :=
  if st.relations.any
      (fun r => r.sourceNodeId == inp.sourceNodeId && r.targetNodeId == inp.targetNodeId) then
    .error "Failed to add knowledge relation"
  else
    let rel : KRelation :=
      { id := st.nextId, userId := inp.userId, sourceNodeId := inp.sourceNodeId,
        targetNodeId := inp.targetNodeId, relationType := inp.relationType,
        strength := inp.strength, metadataSimilarity := inp.metadataSimilarity }
    let nodes1 := updateOneAddToSet st.nodes inp.sourceNodeId inp.targetNodeId
    let nodes2 := updateOneAddToSet nodes1 inp.targetNodeId inp.sourceNodeId
    let st1 : GraphState :=
      { st with relations := st.relations ++ [rel], nodes := nodes2, nextId := st.nextId + 1 }
    .ok (rel, st1)

/-- Insertion step of descending sort by a rational key. -/
def insertDesc {α : Type} (key : α → ℚ) (x : α) : List α → List α
  | [] => [x]
  | y :: ys => if key y < key x then x :: y :: ys else y :: insertDesc key x ys

/-- Descending insertion sort by a rational key; models the JavaScript
`sort((a, b) => scoreB - scoreA)` calls (only membership matters to the
claims, and any comparison sort is a permutation). -/
def sortDesc {α : Type} (key : α → ℚ) : List α → List α
  | [] => []
  | x :: xs => insertDesc key x (sortDesc key xs)

theorem mem_insertDesc {α : Type} (key : α → ℚ) (x : α) (l : List α) (a : α) :
    a ∈ insertDesc key x l ↔ a = x ∨ a ∈ l := by
  induction l with
  | nil => simp [insertDesc]
  | cons y ys ih =>
    by_cases h : key y < key x
    · simp [insertDesc, h]
    · simp [insertDesc, h, ih]
      tauto

theorem mem_sortDesc {α : Type} (key : α → ℚ) (l : List α) (a : α) :
    a ∈ sortDesc key l ↔ a ∈ l := by
  induction l with
  | nil => simp [sortDesc]
  | cons x xs ih => simp [sortDesc, mem_insertDesc, ih]

/-- One scored hit of a Qdrant search. -/
structure ScoredPoint where
  point : VPoint
  score : ℚ

/-- Qdrant named-vector search as `searchSimilarNodes` issues it: only points
carrying the requested named vector are comparable; a `must`-filter keeps only
points whose payload `userId` equals the requesting user; `score_threshold`
is inclusive; hits are ranked by score descending and truncated to `limit`.
The score function (cosine similarity computed inside Qdrant, a float) is an
oracle parameter. -/
def qdrantSearch (score : String → List ℚ → List ℚ → ℚ) (points : List VPoint)
    (vectorName : String) (qvec : List ℚ) (lim : Nat) (threshold : ℚ)
    (userId : String) : List ScoredPoint :=
  let hits := (points.filter fun p =>
    p.vectorName == vectorName && p.userId == userId &&
      decide (threshold ≤ score vectorName qvec p.vector)).map
    fun p => { point := p, score := score vectorName qvec p.vector }
  (sortDesc (fun sp => sp.score) hits).take lim

/-- `KnowledgeGraphService.searchSimilarNodes(query, userId, limit, threshold)`
in a run where the query embedding succeeds: embed the query, search Qdrant
(tenant-filtered), collect the `mongoId`s of the hits, hydrate full nodes from
MongoDB with `find({_id: {$in: mongoIds}, userId})`, and sort them by the
matching hit's score descending (`?.score || 0`). -/
def searchSimilarNodes (emb : String → EmbeddingResponse)
    (score : String → List ℚ → List ℚ → ℚ) (st : GraphState)
    (query userId : String) (lim : Nat) (threshold : ℚ) : List KNode :=
  let qe := emb query
  let vectorName := getVectorName qe.model
  let searchResult := qdrantSearch score st.points vectorName qe.embedding lim threshold userId
  let mongoIds := searchResult.map (fun sp => sp.point.mongoId)
  let nodes := st.nodes.filter fun n => mongoIds.contains n.id && n.userId == userId
  sortDesc (fun n =>
    ((searchResult.find? (fun r => r.point.mongoId == n.id)).map (fun r => r.score)).getD 0)
    nodes

/-- `KnowledgeGraphService.getKnowledgeGraph(userId, limit)`: the user's nodes
newest first (`sort({createdAt: -1})`, i.e. reverse insertion order), capped at
`limit`, plus the user's relations touching any returned node. -/
def getKnowledgeGraph (st : GraphState) (userId : String) (lim : Nat) :
    List KNode × List KRelation :=
  let nodes := ((st.nodes.filter fun n => n.userId == userId).reverse).take lim
  let nodeIds := nodes.map (fun n => n.id)
  let relations := st.relations.filter fun r =>
    r.userId == userId && (nodeIds.contains r.sourceNodeId || nodeIds.contains r.targetNodeId)
  (nodes, relations)

/-- Mongo `deleteOne({_id: nodeId, userId})`: remove the first matching
document. -/
def deleteOneNode : List KNode → Nat → String → List KNode
  | [], _, _ => []
  | n :: rest, nodeId, userId =>
    if n.id = nodeId ∧ n.userId = userId then rest
    else n :: deleteOneNode rest nodeId userId

/-- `KnowledgeGraphService.deleteNode(nodeId, userId)`: delete the node from
MongoDB; compute `convertObjectIdToUUID(nodeId)` — a fresh UUID — and delete
that point id from Qdrant; delete the user's relations referencing the node.
The node's `connections` entries in other nodes are not touched. -/
def deleteNode (st : GraphState) (nodeId : Nat) (userId : String) : GraphState :=
  let nodes := deleteOneNode st.nodes nodeId userId
  let (qdrantId, st1) := convertObjectIdToUUID { st with nodes := nodes } nodeId
  let points := st1.points.filter fun p => !(p.id == qdrantId)
  let relations := st1.relations.filter fun r =>
    !(r.userId == userId && (r.sourceNodeId == nodeId || r.targetNodeId == nodeId))
  { st1 with points := points, relations := relations }

/-- `RAGQuery` of `types/index.ts`. -/
structure RAGQuery where
  query : String
  userId : String
  sessionId : Option String
  model : Option String
  provider : Option String
  maxResults : Option Nat
  threshold : Option ℚ
  customKeyId : Option String
  apiKey : Option String
  baseUrl : Option String

/-- `RAGResponse` of `types/index.ts` (processing time dropped). -/
structure RAGResponse where
  answer : String
  sources : List KNode
  confidence : ℚ
  model : String
  provider : String
  tokens : Nat

/-- `node.metadata.confidence || 0.5` of `performRAGQuery`: JavaScript `||`
substitutes 0.5 both when the stored confidence is absent and when it is the
(falsy) number 0. -/
def confidenceOrHalf (c : Option ℚ) : ℚ :=
  match c with
  | some v => if v = 0 then 1/2 else v
  | none => 1/2

/-- `KnowledgeGraphService.performRAGQuery(query)`: retrieve
`maxResults || 5` nodes above `threshold || 0.7`, build a
`Title/Content/Type` context block per node, generate via
`aiProviderService.generateResponse`, and aggregate confidence as the mean of
`metadata.confidence || 0.5` over the retrieved nodes, or 0.5 if none were
retrieved. Any error is caught and rethrown as
`Failed to perform RAG query`. -/
def performRAGQuery (emb : String → EmbeddingResponse)
    (score : String → List ℚ → List ℚ → ℚ) (genv : GenEnv) (gpr : GenProviders)
    (st : GraphState) (q : RAGQuery) : Except String RAGResponse :=
  let relevantNodes := searchSimilarNodes emb score st q.query q.userId
    (orNumNat q.maxResults 5) (orNumQ q.threshold (7/10))
  let context := relevantNodes.map fun n =>
    "Title: " ++ n.title ++ "\nContent: " ++ n.content ++ "\nType: " ++ n.type
  let chatRequest : ChatRequest :=
    { message := q.query, sessionId := q.sessionId, model := q.model,
      provider := q.provider, context := some context,
      customKeyId := q.customKeyId, apiKey := q.apiKey, baseUrl := q.baseUrl }
  match (generateResponse genv gpr chatRequest).1 with
  | .error _ => .error "Failed to perform RAG query"
  | .ok aiResponse =>
    let confidence :=
      if relevantNodes.length > 0 then
        (relevantNodes.map fun n => confidenceOrHalf n.metadata.confidence).sum
          / relevantNodes.length
      else 1/2
    .ok { answer := aiResponse.message, sources := relevantNodes,
          confidence := confidence, model := aiResponse.metadata.model,
          provider := aiResponse.metadata.provider,
          tokens := aiResponse.metadata.tokens }

/-- JavaScript `s.trim()`: strip leading and trailing whitespace. -/
def jsTrim (s : String) : String :=
  String.mk (((s.toList.dropWhile fun c => c.isWhitespace).reverse.dropWhile
    fun c => c.isWhitespace).reverse)

/-- The sentence terminators of `content.split(/[.!?]+/)`. -/
def isSentenceTerminator (c : Char) : Bool :=
  c = '.' || c = '!' || c = '?'

/-- `content.split(/[.!?]+/).filter(s => s.trim().length > 10)` of
`processDocument`. `List.splitOnP` splits at every single terminator, which
yields extra empty segments where the regex's `+` collapses a run; the length
filter discards every empty segment either way, so the composite is the same
function. -/
def meaningfulSentences (content : String) : List String :=
  ((content.toList.splitOnP isSentenceTerminator).map fun cs => String.mk cs).filter
    fun s => (jsTrim s).length > 10

/-- The node-creation loop of `processDocument`: skip sentences whose trimmed
length is below 20; otherwise `addNode` a `concept` node with
`title = sentence.substring(0, 100) + '...'`, trimmed content, confidence 0.8
and tag `document`, and collect the created nodes in order. -/
def createNodes (emb : String → EmbeddingResponse) (userId : String)
    (source : Option String) : List String → GraphState → List KNode × GraphState
  | [], st => ([], st)
  | s :: rest, st =>
    if (jsTrim s).length < 20 then createNodes emb userId source rest st
    else
      let (node, st1) := addNode emb st
        { userId := userId, title := s.take 100 ++ "...", content := jsTrim s,
          type := "concept",
          metadata := { source := source, confidence := some (4/5), tags := ["document"] },
          connections := [] }
      let (ns, st2) := createNodes emb userId source rest st1
      (node :: ns, st2)

/-- The inner loop of the pairwise-similarity pass of `processDocument`: one
fixed node `a` against each later node; when both carry embeddings, compute
`calculateSimilarity` (a thrown error aborts the whole pass) and, strictly
above 0.7, `addRelation` a `similar` relation with `strength = similarity`. -/
noncomputable def pairOne (userId : String) (a : KNode) :
    List KNode → GraphState → Except String (List KRelation × GraphState)
  | [], st => .ok ([], st)
  | b :: rest, st =>
    match a.embedding, b.embedding with
    | some ea, some eb =>
      match calculateSimilarity ea eb with
      | .error e => .error e
      | .ok similarity =>
        if (7 : ℝ)/10 < similarity then
          match addRelation st
            { userId := userId, sourceNodeId := a.id, targetNodeId := b.id,
              relationType := "similar", strength := similarity,
              metadataSimilarity := some similarity } with
          | .error e => .error e
          | .ok (rel, st1) =>
            match pairOne userId a rest st1 with
            | .error e => .error e
            | .ok (rs, st2) => .ok (rel :: rs, st2)
        else pairOne userId a rest st
    | _, _ => pairOne userId a rest st

/-- The pairwise-similarity pass of `processDocument` over all ordered pairs
`(i, j)` with `i < j`. -/
noncomputable def pairRelations (userId : String) :
    List KNode → GraphState → Except String (List KRelation × GraphState)
  | [], st => .ok ([], st)
  | a :: rest, st =>
    match pairOne userId a rest st with
    | .error e => .error e
    | .ok (rs1, st1) =>
      match pairRelations userId rest st1 with
      | .error e => .error e
      | .ok (rs2, st2) => .ok (rs1 ++ rs2, st2)

/-- `ProcessingResult` of `types/index.ts`, plus the resulting state. -/
structure ProcessingResult where
  nodes : List KNode
  relations : List KRelation
  summary : String
  state : GraphState

/-- `KnowledgeGraphService.processDocument(content, userId, source)` in a run
where the embedding provider succeeds: create one `concept` node per retained
sentence, then relate similar pairs; any thrown error is caught and rethrown
as `Failed to process document`. -/
noncomputable def processDocument (emb : String → EmbeddingResponse)
    (st : GraphState) (content userId : String) (source : Option String) :
    Except String ProcessingResult :=
  let (ns, st1) := createNodes emb userId source (meaningfulSentences content) st
  match pairRelations userId ns st1 with
  | .error _ => .error "Failed to process document"
  | .ok (rs, st2) =>
    .ok { nodes := ns, relations := rs,
          summary := "Processed document with " ++ toString ns.length ++
            " concepts and " ++ toString rs.length ++ " relations",
          state := st2 }

/-- What `ChatController.sendMessage` sends back to the client: answer text,
source nodes and confidence. -/
structure SendResult where
  answer : String
  sources : List KNode
  confidence : ℚ

/-- `ChatController.sendMessage` (response-shaping part): an empty message is
rejected; with `useRAG` (default true) the RAG pipeline runs with
`maxResults = 5` and `threshold = 0.7`; without it the raw generation result
is returned with an empty source list and confidence 1.0. -/
def sendMessage (emb : String → EmbeddingResponse)
    (score : String → List ℚ → List ℚ → ℚ) (genv : GenEnv) (gpr : GenProviders)
    (st : GraphState) (message userId : String)
    (sessionId model provider customKeyId apiKey baseUrl : Option String)
    (useRAG : Bool) : Except String SendResult :=
  if message = "" then .error "Message is required"
  else if useRAG then
    match performRAGQuery emb score genv gpr st
      { query := message, userId := userId, sessionId := sessionId,
        model := model, provider := provider, maxResults := some 5,
        threshold := some (7/10), customKeyId := customKeyId,
        apiKey := apiKey, baseUrl := baseUrl } with
    | .ok r => .ok { answer := r.answer, sources := r.sources, confidence := r.confidence }
    | .error _ => .error "Failed to process message"
  else
    match (generateResponse genv gpr
      { message := message, sessionId := sessionId, model := model,
        provider := provider, context := none, customKeyId := customKeyId,
        apiKey := apiKey, baseUrl := baseUrl }).1 with
    | .ok a => .ok { answer := a.message, sources := [], confidence := 1 }
    | .error _ => .error "Failed to process message"

/-! ## Claims about `calculateSimilarity` (C9, C10) -/

theorem calculateSimilarity_comm (e1 e2 : List ℚ) :
    calculateSimilarity e1 e2 = calculateSimilarity e2 e1 := by
  unfold calculateSimilarity
  by_cases h : e1.length = e2.length
  · simp only [h, ne_eq, not_true_eq_false, if_false, dotProduct_comm e1 e2]
    by_cases h1 : Real.sqrt ((normSq e1 : ℚ) : ℝ) = 0 ∨ Real.sqrt ((normSq e2 : ℚ) : ℝ) = 0
    · rw [if_pos h1, if_pos (Or.symm h1)]
    · rw [if_neg h1, if_neg fun hc => h1 (Or.symm hc), mul_comm]
  · rw [if_pos h, if_pos fun hc => h hc.symm]

theorem calculateSimilarity_self (e : List ℚ) (h : normSq e ≠ 0) :
    calculateSimilarity e e = Except.ok 1 := by
  unfold calculateSimilarity
  have h0 : (0 : ℝ) ≤ ((normSq e : ℚ) : ℝ) := by exact_mod_cast normSq_nonneg e
  have hne : ((normSq e : ℚ) : ℝ) ≠ 0 := by exact_mod_cast h
  have hs : Real.sqrt ((normSq e : ℚ) : ℝ) ≠ 0 := by
    rw [ne_eq, Real.sqrt_eq_zero h0]
    exact hne
  rw [if_neg (by simp), if_neg (by simp [hs])]
  rw [dotProduct_self, Real.mul_self_sqrt h0, div_self hne]

/-- C9 counterexample: the claim asserts `calculateSimilarity(e, e) = 1` for
every vector `e`, but on the all-zero vector both norms are 0 and the
zero-norm guard returns 0, not 1. -/
theorem c9_zero_vector_not_unit :
    calculateSimilarity [(0 : ℚ)] [(0 : ℚ)] = Except.ok 0 ∧ (0 : ℝ) ≠ 1 := by
  constructor
  · unfold calculateSimilarity
    rw [if_neg (by simp)]
    rw [if_pos (by norm_num [normSq])]
  · norm_num

/-- C9 (amended): `calculateSimilarity` is symmetric on all pairs of vectors,
and `calculateSimilarity(e, e) = 1` for every vector `e` of nonzero norm
(some component nonzero); the all-zero vector instead yields 0 via the
zero-norm guard. -/
theorem c9_similarity_symm_self :
    (∀ e1 e2 : List ℚ, calculateSimilarity e1 e2 = calculateSimilarity e2 e1) ∧
    (∀ e : List ℚ, normSq e ≠ 0 → calculateSimilarity e e = Except.ok 1) :=
  ⟨calculateSimilarity_comm, calculateSimilarity_self⟩

theorem c9_witness :
    normSq [(1 : ℚ), 2] ≠ 0 ∧ calculateSimilarity [(1 : ℚ), 2] [(1 : ℚ), 2] = Except.ok 1 :=
  ⟨by norm_num [normSq], c9_similarity_symm_self.2 [(1 : ℚ), 2] (by norm_num [normSq])⟩

/-- C10: `calculateSimilarity` is total on equal-length vectors (the division
is guarded: a zero-norm input short-circuits to 0), and a length mismatch is
rejected with an error rather than computing a value. -/
theorem c10_calculateSimilarity_total :
    (∀ e1 e2 : List ℚ, e1.length = e2.length →
      ∃ r : ℝ, calculateSimilarity e1 e2 = Except.ok r) ∧
    (∀ e1 e2 : List ℚ, e1.length = e2.length →
      ((∀ x ∈ e1, x = 0) ∨ (∀ x ∈ e2, x = 0)) →
      calculateSimilarity e1 e2 = Except.ok 0) ∧
    (∀ e1 e2 : List ℚ, e1.length ≠ e2.length →
      calculateSimilarity e1 e2 = Except.error "Embeddings must have the same length") := by
  refine ⟨?_, ?_, ?_⟩
  · intro e1 e2 h
    unfold calculateSimilarity
    rw [if_neg (by simp [h])]
    by_cases h0 : Real.sqrt ((normSq e1 : ℚ) : ℝ) = 0 ∨ Real.sqrt ((normSq e2 : ℚ) : ℝ) = 0
    · exact ⟨0, if_pos h0⟩
    · exact ⟨_, if_neg h0⟩
  · intro e1 e2 h hz
    unfold calculateSimilarity
    rw [if_neg (by simp [h])]
    refine if_pos ?_
    rcases hz with hz | hz
    · exact Or.inl (by rw [(normSq_eq_zero_iff e1).mpr hz]; simp)
    · exact Or.inr (by rw [(normSq_eq_zero_iff e2).mpr hz]; simp)
  · intro e1 e2 h
    unfold calculateSimilarity
    rw [if_pos h]

theorem c10_witness :
    (∃ r : ℝ, calculateSimilarity [(1 : ℚ)] [(2 : ℚ)] = Except.ok r) ∧
    calculateSimilarity [(0 : ℚ), 0] [(1 : ℚ), 2] = Except.ok 0 ∧
    calculateSimilarity [(1 : ℚ)] [(1 : ℚ), 2] =
      Except.error "Embeddings must have the same length" :=
  ⟨c10_calculateSimilarity_total.1 [(1 : ℚ)] [(2 : ℚ)] (by decide),
   c10_calculateSimilarity_total.2.1 [(0 : ℚ), 0] [(1 : ℚ), 2] (by decide)
     (Or.inl (by decide)),
   c10_calculateSimilarity_total.2.2 [(1 : ℚ)] [(1 : ℚ), 2] (by decide)⟩

/-! ## Claim C2: embedding fallback -/

theorem orDefault_none (d : String) : orDefault none d = d := rfl

theorem orDefault_some_not_empty (s d : String) (h : s.isEmpty = false) :
    orDefault (some s) d = s := by
  simp [orDefault, h]

/-- Environment for the C2 counterexample: no overrides, fallback enabled. -/
def c2Env : EmbEnv :=
  { USE_OLLAMA_FALLBACK := none, DEFAULT_EMBEDDING_MODEL := none,
    OLLAMA_EMBEDDING_MODEL := none }

/-- Providers for the C2 counterexample: OpenAI fails, Ollama succeeds. -/
def c2Providers : EmbProviders :=
  { openai := fun _ _ => .error "quota exceeded",
    ollama := fun _ _ => .ok [2] }

/-- C2 counterexample: with a model hint present (`text-embedding-3-small`),
a primary failure and fallback enabled, `generateEmbedding` forwards the hint
to Ollama and tags the returned vector with the hint — not with the secondary
provider's own default `nomic-embed-text` — and the derived namespace is
`openai`, not the secondary namespace. -/
theorem c2_hint_forwarded_to_fallback :
    generateEmbedding c2Env c2Providers
        { text := "hi", model := some "text-embedding-3-small" } =
      Except.ok { embedding := [2], model := "text-embedding-3-small", tokens := 0 } ∧
    getVectorName "text-embedding-3-small" = "openai" ∧
    "text-embedding-3-small" ≠ "nomic-embed-text" ∧
    "openai" ≠ "ollama" := by
  refine ⟨by rfl, by decide, by decide, by decide⟩

/-- C2 (amended): on a primary failure with fallback enabled,
`generateEmbedding` retries once against Ollama forwarding the caller's model
hint; when no hint is given the tag is Ollama's own default embedding model
(`OLLAMA_EMBEDDING_MODEL || 'nomic-embed-text'`), and with the out-of-the-box
default the derived namespace is the secondary (`ollama`) one; when a hint is
given the response is tagged with the hint itself; if the Ollama retry also
fails the call throws and no partial vector is returned. -/
theorem c2_fallback_behavior :
    (∀ (env : EmbEnv) (pr : EmbProviders) (text e : String) (v : List ℚ),
      pr.openai (orDefault env.DEFAULT_EMBEDDING_MODEL "text-embedding-3-small") text =
        .error e →
      useOllamaFallback env = true →
      env.OLLAMA_EMBEDDING_MODEL = none →
      pr.ollama "nomic-embed-text" text = .ok v →
      generateEmbedding env pr { text := text, model := none } =
        Except.ok { embedding := v, model := "nomic-embed-text", tokens := 0 } ∧
      getVectorName "nomic-embed-text" = "ollama") ∧
    (∀ (env : EmbEnv) (pr : EmbProviders) (text hint e : String) (v : List ℚ),
      hint ≠ "" →
      pr.openai hint text = .error e →
      useOllamaFallback env = true →
      pr.ollama hint text = .ok v →
      generateEmbedding env pr { text := text, model := some hint } =
        Except.ok { embedding := v, model := hint, tokens := 0 }) ∧
    (∀ (env : EmbEnv) (pr : EmbProviders) (req : EmbeddingRequest) (e1 e2 : String),
      pr.openai (orDefault req.model (orDefault env.DEFAULT_EMBEDDING_MODEL
        "text-embedding-3-small")) req.text = .error e1 →
      useOllamaFallback env = true →
      pr.ollama (orDefault req.model (orDefault env.OLLAMA_EMBEDDING_MODEL
        "nomic-embed-text")) req.text = .error e2 →
      generateEmbedding env pr req =
        Except.error "Failed to generate embedding with any provider") := by
  refine ⟨?_, ?_, ?_⟩
  · intro env pr text e v hopenai hfb hmodel hollama
    refine ⟨?_, by decide⟩
    simp only [generateEmbedding, generateEmbeddingWithOllama, orDefault_none,
      hmodel, hopenai, hfb, if_true, hollama]
  · intro env pr text hint e v hne hopenai hfb hollama
    have hne' : hint.isEmpty = false := by
      rw [Bool.eq_false_iff, ne_eq, String.isEmpty_iff]
      exact hne
    simp only [generateEmbedding, generateEmbeddingWithOllama,
      orDefault_some_not_empty _ _ hne', hopenai, hfb, if_true, hollama]
  · intro env pr req e1 e2 hopenai hfb hollama
    simp only [generateEmbedding, generateEmbeddingWithOllama, hopenai, hfb,
      if_true, hollama]

theorem c2_witness :
    c2Providers.openai (orDefault c2Env.DEFAULT_EMBEDDING_MODEL "text-embedding-3-small")
        "hi" = .error "quota exceeded" ∧
    (generateEmbedding c2Env c2Providers { text := "hi", model := none } =
      Except.ok { embedding := [2], model := "nomic-embed-text", tokens := 0 } ∧
    getVectorName "nomic-embed-text" = "ollama") :=
  ⟨by rfl,
   (c2_fallback_behavior.1 c2Env c2Providers "hi" "quota exceeded" [2]
      (by rfl) (by rfl) (by rfl) (by rfl))⟩

/-! ## Claim C3: generation fallback -/

/-- C3: for a selected provider other than `ollama`, a failure of the first
dispatched call triggers exactly one retry against Ollama with the local
default model (`OLLAMA_MODEL || 'llama2'`): if the retry succeeds the result
is returned tagged `provider = ollama` with no error propagated (the call log
is the first provider then one `ollama` entry); if the retry also fails the
call fails with a message carrying both attempts' error messages; and if
`ollama` was the first choice and fails, its error propagates with no further
call. -/
theorem c3_generation_fallback :
    ∀ (env : GenEnv) (pr : GenProviders) (req : ChatRequest) (p m : String),
      p = orDefault req.provider (getDefaultProvider env) →
      m = orDefault req.model (getDefaultModel env p) →
      (∀ (e : String) (r : ChatResponse), p ≠ "ollama" →
        (dispatchProvider env pr req p m).1 = .error e →
        generateOllamaResponse env pr req (some (orDefault env.OLLAMA_MODEL "llama2")) =
          .ok r →
        generateResponse env pr req = (.ok r, (dispatchProvider env pr req p m).2 ++ ["ollama"]) ∧
        r.metadata.provider = "ollama" ∧
        r.metadata.model = orDefault env.OLLAMA_MODEL "llama2") ∧
      (∀ e om : String, p ≠ "ollama" →
        (dispatchProvider env pr req p m).1 = .error e →
        generateOllamaResponse env pr req (some (orDefault env.OLLAMA_MODEL "llama2")) =
          .error om →
        generateResponse env pr req =
          (.error ("All AI providers failed. Primary: " ++ e ++ ", Ollama: " ++ om),
           (dispatchProvider env pr req p m).2 ++ ["ollama"])) ∧
      (∀ e : String, p = "ollama" →
        (dispatchProvider env pr req p m).1 = .error e →
        generateResponse env pr req = (.error e, (dispatchProvider env pr req p m).2)) := by
  intro env pr req p m hp hm
  refine ⟨?_, ?_, ?_⟩
  · intro e r hne hdisp hollama
    have hprov : r.metadata.provider = "ollama" ∧
        r.metadata.model = orDefault env.OLLAMA_MODEL "llama2" := by
      set d := orDefault env.OLLAMA_MODEL "llama2" with hdd
      have h1 : orDefault (some d) d = d := by simp [orDefault]
      simp only [generateOllamaResponse, h1] at hollama
      cases hok : pr.ollama d with
      | ok msg => rw [hok] at hollama; cases hollama; simp
      | error msg => rw [hok] at hollama; cases hollama
    refine ⟨?_, hprov.1, hprov.2⟩
    simp only [generateResponse]
    rw [← hp, ← hm]
    rcases hd : dispatchProvider env pr req p m with ⟨res, log⟩
    rw [hd] at hdisp
    simp only at hdisp
    subst hdisp
    simp [hne, hollama]
  · intro e om hne hdisp hollama
    simp only [generateResponse]
    rw [← hp, ← hm]
    rcases hd : dispatchProvider env pr req p m with ⟨res, log⟩
    rw [hd] at hdisp
    simp only at hdisp
    subst hdisp
    simp [hne, hollama]
  · intro e hpo hdisp
    simp only [generateResponse]
    rw [← hp, ← hm]
    rcases hd : dispatchProvider env pr req p m with ⟨res, log⟩
    rw [hd] at hdisp
    simp only at hdisp
    subst hdisp
    simp [hpo]

/-- Environment for the C3 witness and the C5 counterexample: a process-level
OpenAI key is configured, no Anthropic key. -/
def c3Env : GenEnv :=
  { OPENAI_API_KEY := some "sk-env", ANTHROPIC_API_KEY := none,
    OPENAI_MODEL := none, ANTHROPIC_MODEL := none, OLLAMA_MODEL := none }

/-- Providers for the C3 witness: OpenAI fails, Ollama succeeds. -/
def c3Providers : GenProviders :=
  { openai := fun _ => .error "quota exceeded",
    anthropic := fun _ => .error "no key",
    ollama := fun _ => .ok "local answer",
    freshSessionId := "sess" }

/-- Request for the C3 witness: nothing pinned. -/
def c3Req : ChatRequest :=
  { message := "hello", sessionId := none, model := none, provider := none,
    context := none, customKeyId := none, apiKey := none, baseUrl := none }

theorem c3_witness :
    generateResponse c3Env c3Providers c3Req =
      (.ok { message := "local answer", sessionId := "sess",
             metadata := { model := "llama2", provider := "ollama", tokens := 0,
                           sources := none } },
       ["openai", "ollama"]) ∧
    "openai" ≠ "ollama" :=
  ⟨((c3_generation_fallback c3Env c3Providers c3Req "openai" "gpt-4-turbo-preview"
      rfl rfl).1 "Failed to generate OpenAI response"
      { message := "local answer", sessionId := "sess",
        metadata := { model := "llama2", provider := "ollama", tokens := 0,
                      sources := none } }
      (by decide) (by rfl) (by rfl)).1,
   by decide⟩

/-! ## Claim C5: provider-selection policy -/

/-- Modelled from the spec's words (the claim's selection policy, to be
compared with the code's): a provider for which the tenant supplied a custom
credential is preferred; otherwise the first cloud provider with a truthy
process-level credential in priority order (OpenAI, then Anthropic);
otherwise the local Ollama provider. -/
def specProviderPolicy (customCredProvider : Option String) (env : GenEnv) : String :=
  match customCredProvider with
  | some p => p
  | none =>
    if truthy env.OPENAI_API_KEY then "openai"
    else if truthy env.ANTHROPIC_API_KEY then "anthropic"
    else "ollama"

/-- Request for the C5 counterexample: no provider pinned, but the tenant
supplies a custom Anthropic credential (`customKeyId`/`apiKey`). -/
def c5Req : ChatRequest :=
  { message := "hello", sessionId := none, model := none, provider := none,
    context := none, customKeyId := some "custom-anthropic-key-id",
    apiKey := some "sk-ant-custom", baseUrl := none }

/-- Providers for the C5 counterexample: every provider call succeeds. -/
def c5Providers : GenProviders :=
  { openai := fun _ => .ok ("cloud answer", 7),
    anthropic := fun _ => .ok ("anthropic answer", 7),
    ollama := fun _ => .ok "local answer",
    freshSessionId := "sess" }

/-- C5 counterexample: with a tenant-supplied custom Anthropic credential and
an OpenAI process key, the claim's policy selects `anthropic`, but
`generateResponse` ignores custom credentials during selection and calls
OpenAI (call log `["openai"]`, result tagged `provider = openai`). -/
theorem c5_custom_credential_ignored :
    specProviderPolicy (some "anthropic") c3Env = "anthropic" ∧
    (generateResponse c3Env c5Providers c5Req).2 = ["openai"] ∧
    ((generateResponse c3Env c5Providers c5Req).1.map fun r => r.metadata.provider) =
      Except.ok "openai" ∧
    "openai" ≠ "anthropic" := by
  refine ⟨by decide, by rfl, by rfl, by decide⟩

/-- C5 (amended): when the caller does not pin a provider, selection ignores
tenant custom credentials entirely and is determined by process-level keys
alone: the first provider called is OpenAI if `OPENAI_API_KEY` is truthy,
else Anthropic if `ANTHROPIC_API_KEY` is truthy, else Ollama. -/
theorem c5_default_provider_selection :
    ∀ (env : GenEnv) (pr : GenProviders) (req : ChatRequest),
      truthy req.provider = false →
      (generateResponse env pr req).2.head? = some (getDefaultProvider env) ∧
      (truthy env.OPENAI_API_KEY = true → getDefaultProvider env = "openai") ∧
      (truthy env.OPENAI_API_KEY = false → truthy env.ANTHROPIC_API_KEY = true →
        getDefaultProvider env = "anthropic") ∧
      (truthy env.OPENAI_API_KEY = false → truthy env.ANTHROPIC_API_KEY = false →
        getDefaultProvider env = "ollama") := by
  intro env pr req hfalsy
  have hsel : orDefault req.provider (getDefaultProvider env) = getDefaultProvider env := by
    cases ho : req.provider with
    | none => rfl
    | some s =>
      rw [ho] at hfalsy
      simp only [truthy, Bool.not_eq_false'] at hfalsy
      simp [orDefault, hfalsy]
  refine ⟨?_, ?_, ?_, ?_⟩
  · simp only [generateResponse]
    rw [hsel]
    have hp3 : getDefaultProvider env = "openai" ∨ getDefaultProvider env = "anthropic" ∨
        getDefaultProvider env = "ollama" := by
      unfold getDefaultProvider
      by_cases h1 : truthy env.OPENAI_API_KEY <;>
        by_cases h2 : truthy env.ANTHROPIC_API_KEY <;> simp [h1, h2]
    have hlog : (dispatchProvider env pr req (getDefaultProvider env)
        (orDefault req.model (getDefaultModel env (getDefaultProvider env)))).2 =
        [getDefaultProvider env] := by
      rcases hp3 with h | h | h <;> rw [h] <;> simp [dispatchProvider]
    rcases hd : dispatchProvider env pr req (getDefaultProvider env)
        (orDefault req.model (getDefaultModel env (getDefaultProvider env))) with ⟨res, log⟩
    rw [hd] at hlog
    simp only at hlog
    cases res with
    | ok r => simp [hlog]
    | error e =>
      by_cases hpo : getDefaultProvider env = "ollama"
      · simp [hpo, hlog]
      · simp only [ne_eq, hpo, not_false_eq_true, if_true]
        cases hol : generateOllamaResponse env pr req
            (some (orDefault env.OLLAMA_MODEL "llama2")) with
        | ok r => simp [hol, hlog]
        | error om => simp [hol, hlog]
  · intro h; simp [getDefaultProvider, h]
  · intro h1 h2; simp [getDefaultProvider, h1, h2]
  · intro h1 h2; simp [getDefaultProvider, h1, h2]

theorem c5_witness :
    (generateResponse c3Env c5Providers c3Req).2.head? = some (getDefaultProvider c3Env) ∧
    getDefaultProvider c3Env = "openai" :=
  ⟨(c5_default_provider_selection c3Env c5Providers c3Req (by decide)).1,
   (c5_default_provider_selection c3Env c5Providers c3Req (by decide)).2.1 (by decide)⟩

/-! ## Claim C4: tenant isolation of similarity search -/

/-- C4: every vector search carries a tenant-equality filter, so every Qdrant
hit's payload owner equals the requesting user, and every node returned by
`searchSimilarNodes` is owned by the requesting user — regardless of the
stored points, scores, limit and threshold. -/
theorem c4_tenant_isolation :
    ∀ (emb : String → EmbeddingResponse) (score : String → List ℚ → List ℚ → ℚ)
      (st : GraphState) (query userId : String) (lim : Nat) (threshold : ℚ),
      (∀ sp ∈ qdrantSearch score st.points (getVectorName (emb query).model)
          (emb query).embedding lim threshold userId, sp.point.userId = userId) ∧
      (∀ n ∈ searchSimilarNodes emb score st query userId lim threshold,
        n.userId = userId) := by
  intro emb score st query userId lim threshold
  constructor
  · intro sp hsp
    unfold qdrantSearch at hsp
    have hsp' := List.mem_of_mem_take hsp
    rw [mem_sortDesc] at hsp'
    rcases List.mem_map.mp hsp' with ⟨p, hp, hpe⟩
    rcases List.mem_filter.mp hp with ⟨_, hcond⟩
    simp only [Bool.and_eq_true, beq_iff_eq, decide_eq_true_eq] at hcond
    rw [← hpe]
    exact hcond.1.2
  · intro n hn
    unfold searchSimilarNodes at hn
    rw [mem_sortDesc] at hn
    rcases List.mem_filter.mp hn with ⟨_, hcond⟩
    simp only [Bool.and_eq_true, beq_iff_eq] at hcond
    exact hcond.2

/-- Constant embedding outcome shared by several concrete runs: the vector
`[1]` tagged with the default OpenAI model. -/
def constEmb : String → EmbeddingResponse :=
  fun _ => { embedding := [1], model := "text-embedding-3-small", tokens := 0 }

/-- Constant Qdrant score oracle: every comparison scores 1. -/
def constScore : String → List ℚ → List ℚ → ℚ :=
  fun _ _ _ => 1

/-- A node input owned by `alice`. -/
def aliceInput : NodeInput :=
  { userId := "alice", title := "AI", content := "Machine learning", type := "concept",
    metadata := { source := none, confidence := some 1, tags := [] },
    connections := [] }

/-- State with one node of tenant `alice` in both stores. -/
def aliceState : GraphState := (addNode constEmb emptyState aliceInput).2

theorem c4_witness :
    ((addNode constEmb emptyState aliceInput).1 ∈
      searchSimilarNodes constEmb constScore aliceState "query" "alice" 10 0) ∧
    (addNode constEmb emptyState aliceInput).1.userId = "alice" :=
  ⟨by decide,
   (c4_tenant_isolation constEmb constScore aliceState "query" "alice" 10 0).2
     (addNode constEmb emptyState aliceInput).1 (by decide)⟩

/-! ## Claim C1: deleteNode and the vector index -/

/-- C1 (code bug evaluated at the failing input): after `addNode` for tenant
`alice` (node id 0) and a successful `deleteNode(0, alice)`, the node is
absent from `getKnowledgeGraph` and from `searchSimilarNodes` — but only
because MongoDB hydration filters it: the node's vector point is still in the
Qdrant collection (`mongoId` 0 survives), because `deleteNode` deletes a
fresh random UUID (`convertObjectIdToUUID` ignores its argument) rather than
the UUID the point was upserted under. Before the deletion the point was
live: the search returned the node. -/
theorem c1_deleted_node_vector_point_survives :
    searchSimilarNodes constEmb constScore aliceState "query" "alice" 10 0 =
      [(addNode constEmb emptyState aliceInput).1] ∧
    ((deleteNode aliceState 0 "alice").points.map fun p => p.mongoId) = [0] ∧
    (getKnowledgeGraph (deleteNode aliceState 0 "alice") "alice" 100).1 = [] ∧
    (getKnowledgeGraph (deleteNode aliceState 0 "alice") "alice" 100).2 = [] ∧
    searchSimilarNodes constEmb constScore (deleteNode aliceState 0 "alice")
      "query" "alice" 10 0 = [] :=
  ⟨rfl, rfl, rfl, rfl, rfl⟩

/-! ## Claim C7: RAG answer confidence -/

/-- C7 (amended): the confidence of a completed RAG answer is the arithmetic
mean over the retrieved nodes of `metadata.confidence || 0.5` — i.e. 0.5 is
substituted both for an absent stored confidence and for a stored confidence
of 0 (JavaScript falsiness) — or the flat 0.5 when no nodes were retrieved;
and with `useRAG` disabled the response carries an empty source list and
confidence 1.0. -/
theorem c7_confidence :
    (∀ (emb : String → EmbeddingResponse) (score : String → List ℚ → List ℚ → ℚ)
      (genv : GenEnv) (gpr : GenProviders) (st : GraphState) (q : RAGQuery)
      (r : RAGResponse),
      performRAGQuery emb score genv gpr st q = .ok r →
      r.confidence = (if r.sources = [] then 1/2 else
        (r.sources.map fun n => confidenceOrHalf n.metadata.confidence).sum /
          r.sources.length)) ∧
    (∀ (emb : String → EmbeddingResponse) (score : String → List ℚ → List ℚ → ℚ)
      (genv : GenEnv) (gpr : GenProviders) (st : GraphState)
      (message userId : String) (sessionId model provider ck ak bu : Option String)
      (res : SendResult),
      sendMessage emb score genv gpr st message userId sessionId model provider
        ck ak bu false = .ok res →
      res.sources = [] ∧ res.confidence = 1) := by
  constructor
  · intro emb score genv gpr st q r h
    simp only [performRAGQuery] at h
    split at h
    · cases h
    · cases h
      simp only
      by_cases hn : searchSimilarNodes emb score st q.query q.userId
          (orNumNat q.maxResults 5) (orNumQ q.threshold (7/10)) = []
      · simp [hn]
      · rw [if_pos (List.length_pos.mpr hn), if_neg hn]
  · intro emb score genv gpr st message userId sessionId model provider ck ak bu res h
    simp only [sendMessage, Bool.false_eq_true, if_false] at h
    by_cases hm : message = ""
    · rw [if_pos hm] at h
      cases h
    · rw [if_neg hm] at h
      split at h
      · cases h
        exact ⟨rfl, rfl⟩
      · cases h

/-- Node input with a stored confidence of exactly 0. -/
def c7Input : NodeInput :=
  { userId := "alice", title := "T", content := "C", type := "concept",
    metadata := { source := none, confidence := some 0, tags := [] },
    connections := [] }

/-- The node `addNode` creates from `c7Input` (ids start at 0). -/
def c7Node : KNode :=
  { id := 0, userId := "alice", title := "T", content := "C", type := "concept",
    embedding := some [1],
    metadata := { source := none, confidence := some 0, tags := [] },
    connections := [] }

/-- State with the zero-confidence node in both stores. -/
def c7State : GraphState := (addNode constEmb emptyState c7Input).2

/-- Generation environment for the C7 runs: an OpenAI process key. -/
def c7GEnv : GenEnv :=
  { OPENAI_API_KEY := some "k", ANTHROPIC_API_KEY := none,
    OPENAI_MODEL := none, ANTHROPIC_MODEL := none, OLLAMA_MODEL := none }

/-- Generation providers for the C7 runs: OpenAI answers. -/
def c7GPr : GenProviders :=
  { openai := fun _ => .ok ("answer", 3),
    anthropic := fun _ => .error "no key",
    ollama := fun _ => .error "down",
    freshSessionId := "s" }

/-- The generation result of the C7 runs, parametric in the context block
(the gateway only carries the context, never inspects it). -/
def c7GenResp (ctx : Option (List String)) : ChatResponse :=
  { message := "answer", sessionId := "s",
    metadata := { model := "gpt-4-turbo-preview", provider := "openai",
                  tokens := 3, sources := ctx } }

/-- RAG query for the C7 counterexample (limit 1, threshold 1). -/
def c7Query : RAGQuery :=
  { query := "q", userId := "alice", sessionId := none, model := none,
    provider := none, maxResults := some 1, threshold := some 1,
    customKeyId := none, apiKey := none, baseUrl := none }

/-- C7 counterexample: the sole retrieved node stores confidence 0, so the
claim's rule (substitute 0.5 only when the stored confidence is absent) gives
mean 0; the code's `|| 0.5` treats the stored 0 as falsy and yields 0.5. -/
theorem c7_zero_confidence_becomes_half :
    (performRAGQuery constEmb constScore c7GEnv c7GPr c7State c7Query).map
        (fun r => (r.confidence, r.sources.map fun n => n.metadata.confidence)) =
      Except.ok ((1/2 : ℚ), [some (0 : ℚ)]) ∧ (1/2 : ℚ) ≠ 0 := by
  constructor
  · have hsearch : searchSimilarNodes constEmb constScore c7State "q" "alice"
        (orNumNat (some 1) 5) (orNumQ (some 1) (7/10)) = [c7Node] := by rfl
    have hgen0 : ∀ ctx, (generateResponse c7GEnv c7GPr
        { message := "q", sessionId := none, model := none, provider := none,
          context := ctx, customKeyId := none, apiKey := none, baseUrl := none }).1 =
        Except.ok (c7GenResp ctx) := fun ctx => rfl
    simp only [performRAGQuery, c7Query, hsearch]
    rw [hgen0]
    simp [Except.map, c7Node, confidenceOrHalf]
  · norm_num

/-- Node input with stored confidence 0.9 (the spec's sole-source example). -/
def c7bInput : NodeInput :=
  { userId := "alice", title := "ML", content := "Machine learning", type := "concept",
    metadata := { source := none, confidence := some (9/10), tags := [] },
    connections := [] }

/-- The node `addNode` creates from `c7bInput`. -/
def c7bNode : KNode :=
  { id := 0, userId := "alice", title := "ML", content := "Machine learning",
    type := "concept", embedding := some [1],
    metadata := { source := none, confidence := some (9/10), tags := [] },
    connections := [] }

/-- State with the 0.9-confidence node in both stores. -/
def c7bState : GraphState := (addNode constEmb emptyState c7bInput).2

/-- The RAG response of the C7 witness run. -/
def c7bResp : RAGResponse :=
  { answer := "answer", sources := [c7bNode], confidence := 9/10,
    model := "gpt-4-turbo-preview", provider := "openai", tokens := 3 }

theorem c7_witness :
    c7bResp.confidence = (if c7bResp.sources = [] then 1/2 else
      (c7bResp.sources.map fun n => confidenceOrHalf n.metadata.confidence).sum /
        c7bResp.sources.length) ∧
    c7bResp.confidence = 9/10 := by
  have hsearch : searchSimilarNodes constEmb constScore c7bState "q" "alice"
      (orNumNat (some 1) 5) (orNumQ (some 1) (7/10)) = [c7bNode] := by rfl
  have hgen0 : ∀ ctx, (generateResponse c7GEnv c7GPr
      { message := "q", sessionId := none, model := none, provider := none,
        context := ctx, customKeyId := none, apiKey := none, baseUrl := none }).1 =
      Except.ok (c7GenResp ctx) := fun ctx => rfl
  have hrun : performRAGQuery constEmb constScore c7GEnv c7GPr c7bState c7Query =
      .ok c7bResp := by
    simp only [performRAGQuery, c7Query, hsearch]
    rw [hgen0]
    norm_num [c7GenResp, c7bResp, c7bNode, confidenceOrHalf, RAGResponse.mk.injEq]
  exact ⟨c7_confidence.1 constEmb constScore c7GEnv c7GPr c7bState c7Query c7bResp hrun, rfl⟩

/-! ## Claim C8: adjacency symmetry -/

/-- Symmetric adjacency with existence: whenever a stored node lists `c` among
its connections, a stored node with id `c` exists and lists it back. -/
def SymAdj (st : GraphState) : Prop :=
  ∀ n ∈ st.nodes, ∀ c ∈ n.connections, ∃ m ∈ st.nodes, m.id = c ∧ n.id ∈ m.connections

instance instDecidableSymAdj (st : GraphState) : Decidable (SymAdj st) := by
  unfold SymAdj
  infer_instance

theorem mem_addToSet (l : List Nat) (x y : Nat) : y ∈ addToSet l x ↔ y ∈ l ∨ y = x := by
  unfold addToSet
  by_cases h : x ∈ l
  · rw [if_pos h]
    constructor
    · exact Or.inl
    · rintro (hy | rfl)
      exacts [hy, h]
  · rw [if_neg h]
    simp [List.mem_append]

theorem addNode_nodes (emb : String → EmbeddingResponse) (st : GraphState)
    (inp : NodeInput) :
    (addNode emb st inp).2.nodes = st.nodes ++ [(addNode emb st inp).1] := rfl

theorem addToSetIfId_id (nid conn : Nat) (n : KNode) :
    (addToSetIfId nid conn n).id = n.id := by
  unfold addToSetIfId
  split <;> rfl

theorem mem_addToSetIfId (nid conn : Nat) (n : KNode) (c : Nat) :
    c ∈ (addToSetIfId nid conn n).connections ↔
      c ∈ n.connections ∨ (n.id = nid ∧ c = conn) := by
  unfold addToSetIfId
  by_cases h : n.id = nid
  · rw [if_pos (by simp [h])]
    simp [mem_addToSet, h]
  · rw [if_neg (by simp [h])]
    simp [h]

/-- C8 (amended): symmetric adjacency is preserved by `addNode` when the
inserted node starts with an empty connections list (as every embedded call
site does), and by `addRelation` when both endpoint nodes exist — relation
creation adds each endpoint to the other's connections list. (`deleteNode`
does not preserve it: it never scrubs surviving nodes' connections lists, see
the counterexample.) -/
theorem c8_adjacency :
    (∀ (emb : String → EmbeddingResponse) (st : GraphState) (inp : NodeInput),
      SymAdj st → inp.connections = [] → SymAdj (addNode emb st inp).2) ∧
    (∀ (st : GraphState) (inp : RelationInput) (res : KRelation × GraphState),
      SymAdj st →
      (∃ ns ∈ st.nodes, ns.id = inp.sourceNodeId) →
      (∃ nt ∈ st.nodes, nt.id = inp.targetNodeId) →
      addRelation st inp = .ok res → SymAdj res.2) := by
  constructor
  · intro emb st inp hsym hconn
    intro n hn c hc
    rw [addNode_nodes] at hn
    rcases List.mem_append.mp hn with hn | hn
    · obtain ⟨m, hm, hid, hmem⟩ := hsym n hn c hc
      exact ⟨m, by rw [addNode_nodes]; exact List.mem_append_left _ hm, hid, hmem⟩
    · rw [List.mem_singleton] at hn
      subst hn
      rw [show (addNode emb st inp).1.connections = inp.connections from rfl, hconn] at hc
      exact absurd hc (List.not_mem_nil c)
  · intro st inp res hsym hs ht hrel
    unfold addRelation at hrel
    split at hrel
    · cases hrel
    · cases hrel
      set s := inp.sourceNodeId with hsdef
      set t := inp.targetNodeId with htdef
      intro n' hn' c hc
      simp only [updateOneAddToSet] at hn' hc ⊢
      rcases List.mem_map.mp hn' with ⟨nf, hnf, hgn⟩
      rcases List.mem_map.mp hnf with ⟨n, hn, hfn⟩
      subst hgn
      subst hfn
      simp only [mem_addToSetIfId, addToSetIfId_id] at hc
      have hmem2 : ∀ m ∈ st.nodes,
          addToSetIfId t s (addToSetIfId s t m) ∈
            List.map (addToSetIfId t s) (List.map (addToSetIfId s t) st.nodes) :=
        fun m hm => List.mem_map.mpr ⟨_, List.mem_map.mpr ⟨m, hm, rfl⟩, rfl⟩
      rcases hc with (hc | ⟨hns, hct⟩) | ⟨hnt, hcs⟩
      · obtain ⟨m, hm, hid, hmem⟩ := hsym n hn c hc
        refine ⟨_, hmem2 m hm, ?_, ?_⟩
        · simp only [addToSetIfId_id]
          exact hid
        · simp only [mem_addToSetIfId, addToSetIfId_id]
          exact Or.inl (Or.inl hmem)
      · obtain ⟨nt, hntmem, hntid⟩ := ht
        refine ⟨_, hmem2 nt hntmem, ?_, ?_⟩
        · simp only [addToSetIfId_id]
          rw [hntid, hct]
        · simp only [mem_addToSetIfId, addToSetIfId_id]
          exact Or.inr ⟨hntid, hns⟩
      · obtain ⟨ns, hnsmem, hnsid⟩ := hs
        refine ⟨_, hmem2 ns hnsmem, ?_, ?_⟩
        · simp only [addToSetIfId_id]
          rw [hnsid, hcs]
        · simp only [mem_addToSetIfId, addToSetIfId_id]
          exact Or.inl (Or.inr ⟨hnsid, hnt⟩)

/-- First node input of the C8 runs. -/
def c8InputA : NodeInput :=
  { userId := "u", title := "A", content := "a", type := "concept",
    metadata := { source := none, confidence := none, tags := [] },
    connections := [] }

/-- Second node input of the C8 runs. -/
def c8InputB : NodeInput :=
  { userId := "u", title := "B", content := "b", type := "concept",
    metadata := { source := none, confidence := none, tags := [] },
    connections := [] }

/-- State with the two nodes `A` (id 0) and `B` (id 1). -/
def c8StateAB : GraphState :=
  (addNode constEmb (addNode constEmb emptyState c8InputA).2 c8InputB).2

/-- Relation input `A → B`. -/
def c8RelInput : RelationInput :=
  { userId := "u", sourceNodeId := 0, targetNodeId := 1, relationType := "related",
    strength := 1, metadataSimilarity := none }

/-- The relation record `addRelation` creates from `c8RelInput`. -/
def c8Rel : KRelation :=
  { id := 2, userId := "u", sourceNodeId := 0, targetNodeId := 1,
    relationType := "related", strength := 1, metadataSimilarity := none }

/-- Node `A` after the relation is added: it lists `B`. -/
def c8NodeA : KNode :=
  { id := 0, userId := "u", title := "A", content := "a", type := "concept",
    embedding := some [1],
    metadata := { source := none, confidence := none, tags := [] },
    connections := [1] }

/-- Node `B` after the relation is added: it lists `A`. -/
def c8NodeB : KNode :=
  { id := 1, userId := "u", title := "B", content := "b", type := "concept",
    embedding := some [1],
    metadata := { source := none, confidence := none, tags := [] },
    connections := [0] }

/-- Vector point of node `A`. -/
def c8PointA : VPoint :=
  { id := 0, vectorName := "openai", vector := [1], mongoId := 0, userId := "u",
    title := "A", content := "a", type := "concept",
    embeddingModel := "text-embedding-3-small" }

/-- Vector point of node `B`. -/
def c8PointB : VPoint :=
  { id := 1, vectorName := "openai", vector := [1], mongoId := 1, userId := "u",
    title := "B", content := "b", type := "concept",
    embeddingModel := "text-embedding-3-small" }

/-- The state after `addRelation c8StateAB c8RelInput`. -/
def c8PostRel : GraphState :=
  { nodes := [c8NodeA, c8NodeB], relations := [c8Rel],
    points := [c8PointA, c8PointB], nextId := 3, nextUuid := 2 }

/-- The state after deleting node `A`: built by running the operations. -/
def c8Final : GraphState :=
  match addRelation c8StateAB c8RelInput with
  | .ok p => deleteNode p.2 0 "u"
  | .error _ => c8StateAB

/-- C8 counterexample: starting from a symmetric state, `addNode` twice,
`addRelation(A, B)`, then `deleteNode(A)` leaves the surviving node `B` still
listing the deleted node `A` (connections `[0]` while no node with id 0
exists), so the invariant is not preserved by every graph operation. -/
theorem c8_deleteNode_breaks_symmetry :
    SymAdj emptyState ∧ SymAdj c8StateAB ∧
    (c8Final.nodes.map fun n => (n.id, n.connections)) = [(1, [0])] ∧
    ¬ SymAdj c8Final :=
  ⟨by decide, by decide, rfl, by decide⟩

theorem c8_witness :
    SymAdj (addNode constEmb emptyState c8InputA).2 ∧ SymAdj c8PostRel :=
  ⟨c8_adjacency.1 constEmb emptyState c8InputA (by decide) rfl,
   c8_adjacency.2 c8StateAB c8RelInput (c8Rel, c8PostRel) (by decide)
     (by decide) (by decide) rfl⟩

/-! ## Claim C6: the 0.7 similarity threshold of processDocument -/

theorem pairOne_spec (u : String) (a : KNode) (l : List KNode) (st : GraphState)
    (rs : List KRelation) (st' : GraphState)
    (h : pairOne u a l st = .ok (rs, st')) :
    (∀ r ∈ rs, r.sourceNodeId = a.id ∧ r.relationType = "similar" ∧
      ∃ b ∈ l, r.targetNodeId = b.id ∧ ∃ ea eb, a.embedding = some ea ∧
        b.embedding = some eb ∧ calculateSimilarity ea eb = .ok r.strength ∧
        (7 : ℝ)/10 < r.strength) ∧
    (∀ b ∈ l, ∀ ea eb s, a.embedding = some ea → b.embedding = some eb →
      calculateSimilarity ea eb = .ok s → (7 : ℝ)/10 < s →
      ∃ r ∈ rs, r.sourceNodeId = a.id ∧ r.targetNodeId = b.id ∧ r.strength = s) := by
  induction l generalizing st rs st' with
  | nil =>
    simp only [pairOne] at h
    cases h
    exact ⟨fun r hr => absurd hr (List.not_mem_nil r),
           fun b hb => absurd hb (List.not_mem_nil b)⟩
  | cons b0 rest ih =>
    simp only [pairOne] at h
    split at h
    case _ ea eb heqa heqb =>
      split at h
      · cases h
      case _ sim hsim =>
        split at h
        case isTrue hgt0 =>
          split at h
          · cases h
          case _ rel st1 hrel =>
            split at h
            · cases h
            case _ rs0 st2 hrec =>
              cases h
              obtain ⟨ihf, ihb⟩ := ih st1 rs0 st' hrec
              have hfields : rel.sourceNodeId = a.id ∧ rel.targetNodeId = b0.id ∧
                  rel.relationType = "similar" ∧ rel.strength = sim := by
                unfold addRelation at hrel
                split at hrel
                · cases hrel
                · cases hrel
                  exact ⟨rfl, rfl, rfl, rfl⟩
              constructor
              · intro r hr
                rcases List.mem_cons.mp hr with rfl | hr
                · refine ⟨hfields.1, hfields.2.2.1, b0, List.mem_cons_self b0 rest,
                    hfields.2.1, ea, eb, heqa, heqb, ?_, ?_⟩
                  · rw [hfields.2.2.2]
                    exact hsim
                  · rw [hfields.2.2.2]
                    exact hgt0
                · obtain ⟨h1, h2, b, hb, hrest⟩ := ihf r hr
                  exact ⟨h1, h2, b, List.mem_cons_of_mem b0 hb, hrest⟩
              · intro b hb ea' eb' s hea' heb' hsim' hgt
                rcases List.mem_cons.mp hb with rfl | hb
                · refine ⟨rel, List.mem_cons_self rel rs0, hfields.1, hfields.2.1, ?_⟩
                  have hiea : ea' = ea := by
                    rw [heqa] at hea'
                    exact (Option.some.inj hea').symm
                  have hieb : eb' = eb := by
                    rw [heqb] at heb'
                    exact (Option.some.inj heb').symm
                  subst hiea
                  subst hieb
                  rw [hsim] at hsim'
                  have hss : s = sim := Except.ok.inj hsim'.symm
                  rw [hfields.2.2.2]
                  exact hss.symm
                · obtain ⟨r, hr, hfacts⟩ := ihb b hb ea' eb' s hea' heb' hsim' hgt
                  exact ⟨r, List.mem_cons_of_mem rel hr, hfacts⟩
        case isFalse hle =>
          obtain ⟨ihf, ihb⟩ := ih st rs st' h
          constructor
          · intro r hr
            obtain ⟨h1, h2, b, hb, hrest⟩ := ihf r hr
            exact ⟨h1, h2, b, List.mem_cons_of_mem b0 hb, hrest⟩
          · intro b hb ea' eb' s hea' heb' hsim' hgt
            rcases List.mem_cons.mp hb with rfl | hb
            · exfalso
              have hiea : ea' = ea := by
                rw [heqa] at hea'
                exact (Option.some.inj hea').symm
              have hieb : eb' = eb := by
                rw [heqb] at heb'
                exact (Option.some.inj heb').symm
              subst hiea
              subst hieb
              rw [hsim] at hsim'
              have hss : s = sim := Except.ok.inj hsim'.symm
              subst hss
              exact hle hgt
            · exact ihb b hb ea' eb' s hea' heb' hsim' hgt
    case _ hmiss =>
      obtain ⟨ihf, ihb⟩ := ih st rs st' h
      constructor
      · intro r hr
        obtain ⟨h1, h2, b, hb, hrest⟩ := ihf r hr
        exact ⟨h1, h2, b, List.mem_cons_of_mem b0 hb, hrest⟩
      · intro b hb ea' eb' s hea' heb' hsim' hgt
        rcases List.mem_cons.mp hb with rfl | hb
        · exact (hmiss ea' eb' hea' heb').elim
        · exact ihb b hb ea' eb' s hea' heb' hsim' hgt

theorem pairRelations_spec (u : String) (l : List KNode) (st : GraphState)
    (rs : List KRelation) (st' : GraphState)
    (h : pairRelations u l st = .ok (rs, st')) :
    (∀ r ∈ rs, r.relationType = "similar" ∧ ∃ a b, List.Sublist [a, b] l ∧
      r.sourceNodeId = a.id ∧ r.targetNodeId = b.id ∧ ∃ ea eb,
        a.embedding = some ea ∧ b.embedding = some eb ∧
        calculateSimilarity ea eb = .ok r.strength ∧ (7 : ℝ)/10 < r.strength) ∧
    (∀ a b, List.Sublist [a, b] l → ∀ ea eb s, a.embedding = some ea →
      b.embedding = some eb → calculateSimilarity ea eb = .ok s → (7 : ℝ)/10 < s →
      ∃ r ∈ rs, r.sourceNodeId = a.id ∧ r.targetNodeId = b.id ∧ r.strength = s) := by
  induction l generalizing st rs st' with
  | nil =>
    simp only [pairRelations] at h
    cases h
    refine ⟨fun r hr => absurd hr (List.not_mem_nil r), fun a b hsub => ?_⟩
    rw [List.sublist_nil] at hsub
    cases hsub
  | cons x rest ih =>
    simp only [pairRelations] at h
    split at h
    · cases h
    case _ rs1 st1 hpair =>
      split at h
      · cases h
      case _ rs2 st2 hrec =>
        cases h
        obtain ⟨f1, b1⟩ := pairOne_spec u x rest st rs1 st1 hpair
        obtain ⟨f2, b2⟩ := ih st1 rs2 st' hrec
        constructor
        · intro r hr
          rcases List.mem_append.mp hr with hr | hr
          · obtain ⟨hsrc, htype, b, hb, htgt, hrest⟩ := f1 r hr
            exact ⟨htype, x, b, List.Sublist.cons₂ x (List.singleton_sublist.mpr hb),
              hsrc, htgt, hrest⟩
          · obtain ⟨htype, a, b, hsub, hrest⟩ := f2 r hr
            exact ⟨htype, a, b, hsub.cons x, hrest⟩
        · intro a b hsub ea eb s hea heb hsim hgt
          cases hsub with
          | cons _ h' =>
            obtain ⟨r, hr, hfacts⟩ := b2 a b h' ea eb s hea heb hsim hgt
            exact ⟨r, List.mem_append_right rs1 hr, hfacts⟩
          | cons₂ _ h' =>
            obtain ⟨r, hr, hfacts⟩ := b1 b (List.singleton_sublist.mp h') ea eb s
              hea heb hsim hgt
            exact ⟨r, List.mem_append_left rs2 hr, hfacts⟩

/-- C6 (amended): in a successful `processDocument` run, a `similar` relation
exists between an ordered pair of newly created nodes exactly when both carry
embeddings and their cosine similarity is defined and strictly greater than
0.7 — and every created relation's strength is that cosine similarity. A pair
scoring exactly 0.7 gets no relation (strict `>`, see the counterexample). -/
theorem c6_similar_threshold :
    ∀ (emb : String → EmbeddingResponse) (st : GraphState) (content userId : String)
      (source : Option String) (res : ProcessingResult),
      processDocument emb st content userId source = .ok res →
      (∀ r ∈ res.relations, r.relationType = "similar" ∧ ∃ a b,
        List.Sublist [a, b] res.nodes ∧ r.sourceNodeId = a.id ∧
        r.targetNodeId = b.id ∧ ∃ ea eb, a.embedding = some ea ∧
        b.embedding = some eb ∧ calculateSimilarity ea eb = Except.ok r.strength ∧
        (7 : ℝ)/10 < r.strength) ∧
      (∀ a b, List.Sublist [a, b] res.nodes → ∀ ea eb s, a.embedding = some ea →
        b.embedding = some eb → calculateSimilarity ea eb = Except.ok s →
        (7 : ℝ)/10 < s →
        ∃ r ∈ res.relations, r.sourceNodeId = a.id ∧ r.targetNodeId = b.id ∧
          r.strength = s) := by
  intro emb st content userId source res h
  simp only [processDocument] at h
  split at h
  · cases h
  case _ rs st2 hpr =>
    cases h
    exact pairRelations_spec userId _ _ rs st2 hpr

/-- Two-sentence document for the C6 runs. -/
def c6Doc : String :=
  "Artificial intelligence is intelligence in machines. Machine learning is a subset of artificial intelligence."

/-- First stubbed embedding: a unit vector. -/
def c6E1 : List ℚ := [1, 0, 0, 0]

/-- Second stubbed embedding: a unit vector at cosine exactly 7/10 from
`c6E1` (`(7/10)² + (7/10)² + (1/10)² + (1/10)² = 1` and the dot product with
`c6E1` is `7/10`). -/
def c6E2 : List ℚ := [7/10, 7/10, 1/10, 1/10]

/-- Stubbed embedding provider keyed on the second sentence's word `subset`. -/
def c6Emb : String → EmbeddingResponse := fun t =>
  if strIncludes t "subset" then
    { embedding := c6E2, model := "text-embedding-3-small", tokens := 0 }
  else
    { embedding := c6E1, model := "text-embedding-3-small", tokens := 0 }

theorem c6_sim_exact : calculateSimilarity c6E1 c6E2 = Except.ok ((7 : ℝ)/10) := by
  have h1 : normSq c6E1 = 1 := by norm_num [normSq, c6E1]
  have h2 : normSq c6E2 = 1 := by norm_num [normSq, c6E2]
  have h3 : dotProduct c6E1 c6E2 = 7/10 := by norm_num [dotProduct, c6E1, c6E2]
  unfold calculateSimilarity
  rw [h1, h2, h3]
  norm_num [Real.sqrt_one, c6E1, c6E2]

/-- First node created from `c6Doc`. -/
def c6N1 : KNode :=
  { id := 0, userId := "u",
    title := "Artificial intelligence is intelligence in machines...",
    content := "Artificial intelligence is intelligence in machines",
    type := "concept", embedding := some c6E1,
    metadata := { source := none, confidence := some (4/5), tags := ["document"] },
    connections := [] }

/-- Second node created from `c6Doc` (the raw split segment keeps its leading
space in the title; the content is trimmed). -/
def c6N2 : KNode :=
  { id := 1, userId := "u",
    title := " Machine learning is a subset of artificial intelligence...",
    content := "Machine learning is a subset of artificial intelligence",
    type := "concept", embedding := some c6E2,
    metadata := { source := none, confidence := some (4/5), tags := ["document"] },
    connections := [] }

/-- Vector point of `c6N1`. -/
def c6P1 : VPoint :=
  { id := 0, vectorName := "openai", vector := c6E1, mongoId := 0, userId := "u",
    title := "Artificial intelligence is intelligence in machines...",
    content := "Artificial intelligence is intelligence in machines",
    type := "concept", embeddingModel := "text-embedding-3-small" }

/-- Vector point of `c6N2`. -/
def c6P2 : VPoint :=
  { id := 1, vectorName := "openai", vector := c6E2, mongoId := 1, userId := "u",
    title := " Machine learning is a subset of artificial intelligence...",
    content := "Machine learning is a subset of artificial intelligence",
    type := "concept", embeddingModel := "text-embedding-3-small" }

/-- State after the node-creation phase on `c6Doc`. -/
def c6St1 : GraphState :=
  { nodes := [c6N1, c6N2], relations := [], points := [c6P1, c6P2],
    nextId := 2, nextUuid := 2 }

set_option maxRecDepth 40000 in
/-- C6 counterexample: ingesting the two-sentence document with stubbed
embeddings at cosine similarity exactly 0.7 creates the two concept nodes but
no `similar` relation — the source tests `similarity > 0.7` strictly, so a
pair scoring exactly the threshold gets no relation, contradicting the
claim's `≥ 0.7` (inclusive) reading. -/
theorem c6_exact_threshold_no_relation :
    calculateSimilarity c6E1 c6E2 = Except.ok ((7 : ℝ)/10) ∧
    (processDocument c6Emb emptyState c6Doc "u" none).map
        (fun res => (res.nodes, res.relations)) =
      Except.ok (([c6N1, c6N2] : List KNode), ([] : List KRelation)) := by
  refine ⟨c6_sim_exact, ?_⟩
  have hcreate : createNodes c6Emb "u" none (meaningfulSentences c6Doc) emptyState =
      ([c6N1, c6N2], c6St1) := rfl
  have hpair : pairRelations "u" [c6N1, c6N2] c6St1 = Except.ok ([], c6St1) := by
    simp only [pairRelations, pairOne, c6N1, c6N2, c6_sim_exact]
    rw [if_neg (lt_irrefl ((7 : ℝ)/10))]
    rfl
  simp only [processDocument, hcreate, hpair]
  rfl

/-- Constant stubbed embedding provider for the C6 witness run: every text
embeds to `c6E1`, so the two nodes' cosine similarity is 1. -/
def c6EmbW : String → EmbeddingResponse := fun _ =>
  { embedding := c6E1, model := "text-embedding-3-small", tokens := 0 }

/-- Second node of the witness run (same as `c6N2` but embedded as `c6E1`). -/
def c6N2W : KNode :=
  { id := 1, userId := "u",
    title := " Machine learning is a subset of artificial intelligence...",
    content := "Machine learning is a subset of artificial intelligence",
    type := "concept", embedding := some c6E1,
    metadata := { source := none, confidence := some (4/5), tags := ["document"] },
    connections := [] }

/-- Vector point of `c6N2W`. -/
def c6P2W : VPoint :=
  { id := 1, vectorName := "openai", vector := c6E1, mongoId := 1, userId := "u",
    title := " Machine learning is a subset of artificial intelligence...",
    content := "Machine learning is a subset of artificial intelligence",
    type := "concept", embeddingModel := "text-embedding-3-small" }

/-- State after the node-creation phase of the witness run. -/
def c6St1W : GraphState :=
  { nodes := [c6N1, c6N2W], relations := [], points := [c6P1, c6P2W],
    nextId := 2, nextUuid := 2 }

/-- The `similar` relation the witness run creates. -/
def c6RelW : KRelation :=
  { id := 2, userId := "u", sourceNodeId := 0, targetNodeId := 1,
    relationType := "similar", strength := 1, metadataSimilarity := some 1 }

/-- `c6N1` after `addRelation` appends the connection to node 1. -/
def c6N1c : KNode :=
  { id := 0, userId := "u",
    title := "Artificial intelligence is intelligence in machines...",
    content := "Artificial intelligence is intelligence in machines",
    type := "concept", embedding := some c6E1,
    metadata := { source := none, confidence := some (4/5), tags := ["document"] },
    connections := [1] }

/-- `c6N2W` after `addRelation` appends the connection to node 0. -/
def c6N2c : KNode :=
  { id := 1, userId := "u",
    title := " Machine learning is a subset of artificial intelligence...",
    content := "Machine learning is a subset of artificial intelligence",
    type := "concept", embedding := some c6E1,
    metadata := { source := none, confidence := some (4/5), tags := ["document"] },
    connections := [0] }

/-- Final state of the witness run. -/
def c6St2W : GraphState :=
  { nodes := [c6N1c, c6N2c], relations := [c6RelW], points := [c6P1, c6P2W],
    nextId := 3, nextUuid := 2 }

/-- The full result of the witness run. -/
def c6ResW : ProcessingResult :=
  { nodes := [c6N1, c6N2W], relations := [c6RelW],
    summary := "Processed document with 2 concepts and 1 relations",
    state := c6St2W }

set_option maxRecDepth 40000 in
theorem c6_witness :
    ∃ r ∈ c6ResW.relations, r.sourceNodeId = c6N1.id ∧ r.targetNodeId = c6N2W.id ∧
      r.strength = 1 := by
  have hsim1 : calculateSimilarity c6E1 c6E1 = Except.ok (1 : ℝ) :=
    calculateSimilarity_self c6E1 (by norm_num [normSq, c6E1])
  have hcreateW : createNodes c6EmbW "u" none (meaningfulSentences c6Doc) emptyState =
      ([c6N1, c6N2W], c6St1W) := rfl
  have hpairW : pairRelations "u" [c6N1, c6N2W] c6St1W = Except.ok ([c6RelW], c6St2W) := by
    simp only [pairRelations, pairOne, c6N1, c6N2W, hsim1]
    rw [if_pos (by norm_num : (7 : ℝ)/10 < 1)]
    rfl
  have hrunW : processDocument c6EmbW emptyState c6Doc "u" none = Except.ok c6ResW := by
    simp only [processDocument, hcreateW, hpairW]
    rfl
  exact (c6_similar_threshold c6EmbW emptyState c6Doc "u" none c6ResW hrunW).2
    c6N1 c6N2W (List.Sublist.refl [c6N1, c6N2W]) c6E1 c6E1 1 rfl rfl hsim1
    (by norm_num)

end KGraph
